import Mathlib

/-!
Shallow embedding of the IronWallet personal-finance app.

Monetary amounts are integer cents (`Int`, matching the `integer` columns of
the SQL schema and the `number` fields of the generated client types).
Dates and timestamps are modelled as integers (milliseconds since epoch),
so that the JavaScript `Date` comparisons become integer comparisons.
User-entered strings that the code passes through `parseInt` are modelled by
the parse's result, an `Option Int` (`none` for `NaN`), which covers every
input string.
-/

namespace IronWallet

/-- Category types, from the schema CHECK constraint
`category_type IN ('bills', 'goals', 'daily', 'freedom', 'emergency')`
and the union type in the generated client. -/
inductive CategoryType
  | bills
  | goals
  | daily
  | freedom
  | emergency
deriving DecidableEq, Repr

/-- One entry of the onboarding screen's `categories` state:
`{ type, name, percentage, color }`. -/
structure CategoryDef where
  type : CategoryType
  name : String
  percentage : Int
  color : String
deriving DecidableEq, Repr

/-- The `DEFAULT_CATEGORIES` constant of the onboarding screen. -/
def DEFAULT_CATEGORIES : List CategoryDef :=
  [⟨.bills, "Bills", 30, "#FF6B6B"⟩,
   ⟨.goals, "Goals", 20, "#4ECDC4"⟩,
   ⟨.daily, "Daily", 25, "#FFD700"⟩,
   ⟨.freedom, "Freedom", 20, "#95E1D3"⟩,
   ⟨.emergency, "Emergency", 5, "#F38181"⟩]

/-- The percentage stored by `handlePercentageChange`:
`const percentage = parseInt(value) || 0;` followed by
`Math.min(100, Math.max(0, percentage))`.  The argument is the result of
`parseInt` (`none` for `NaN`, which `|| 0` turns into `0`; a parsed `0`
is also replaced by `0` by `|| 0`, with the same value). -/
def storedPercentage (parsed : Option Int) : Int :=
  let percentage := parsed.getD 0
  min 100 (max 0 percentage)

/-- The `handlePercentageChange` handler of the onboarding screen: copies the
`categories` array and overwrites entry `index` with the clamped parsed
percentage.  The screen only calls it with an in-range index; an out-of-range
index leaves the list unchanged. -/
def handlePercentageChange (cats : List CategoryDef) (index : Nat)
    (parsed : Option Int) : List CategoryDef :=
  match cats[index]? with
  | none => cats
  | some c => cats.set index { c with percentage := storedPercentage parsed }

/-- The onboarding screen's
`totalPercentage = categories.reduce((sum, cat) => sum + cat.percentage, 0)`. -/
def totalPercentage (cats : List CategoryDef) : Int :=
  cats.foldl (fun sum cat => sum + cat.percentage) 0

/-- The `disabled={totalPercentage !== 100}` condition on the Complete Setup
button. -/
def completeSetupDisabled (cats : List CategoryDef) : Bool :=
  decide (totalPercentage cats ≠ 100)

/-- A row of the `budget_categories` table as inserted by `handleComplete`.
Row ids (`uuid DEFAULT gen_random_uuid()`) are modelled as naturals handed
out in insertion order. -/
structure BudgetCategoryRow where
  id : Nat
  category_name : String
  category_type : CategoryType
  allocation_percentage : Int
  current_balance : Int
  color_code : String
deriving DecidableEq, Repr

/-- A row of the `income_splits` table as inserted by `handleComplete`.
The schema declares `category_id` as `uuid ... NOT NULL`; the model keeps it
an `Option` so that the value the code actually supplies
(`existingCategory?.id`, possibly `undefined`) can be inspected. -/
structure IncomeSplitRow where
  category_id : Option Nat
  split_percentage : Int
deriving DecidableEq, Repr

/-- The per-user slice of the database that `handleComplete` reads and
writes: the user's `budget_categories` and `income_splits` rows, plus the
id counter standing in for uuid generation. -/
structure OnboardingState where
  budget_categories : List BudgetCategoryRow
  income_splits : List IncomeSplitRow
  nextId : Nat
deriving DecidableEq, Repr

/-- The `maybeSingle()` lookup of `handleComplete`: the user's
`budget_categories` row with the given `category_type`, if any (the schema's
`UNIQUE(user_id, category_type)` makes it unique). -/
def lookupCategory (s : OnboardingState) (t : CategoryType) :
    Option BudgetCategoryRow :=
  s.budget_categories.find? (fun r => decide (r.category_type = t))

/-- One iteration of the `for (const category of categories)` loop of
`handleComplete`: if no `budget_categories` row of this type exists, insert
one (allocation from the chosen percentage, `current_balance: 0`) and then
insert an `income_splits` row whose `category_id` is the code's
`existingCategory?.id` — evaluated, as in the source, on the lookup result
from before the insert. -/
def handleCompleteStep (s : OnboardingState) (category : CategoryDef) :
    OnboardingState :=
  let existingCategory := lookupCategory s category.type
  match existingCategory with
  | some _ => s
  | none =>
    let newRow : BudgetCategoryRow :=
      { id := s.nextId
        category_name := category.name
        category_type := category.type
        allocation_percentage := category.percentage
        current_balance := 0
        color_code := category.color }
    let newSplit : IncomeSplitRow :=
      { category_id := existingCategory.map (fun r => r.id)
        split_percentage := category.percentage }
    { budget_categories := s.budget_categories ++ [newRow]
      income_splits := s.income_splits ++ [newSplit]
      nextId := s.nextId + 1 }

/-- The category/split part of `handleComplete`: the loop over the five
configured categories. -/
def handleComplete (s : OnboardingState) (cats : List CategoryDef) :
    OnboardingState :=
  cats.foldl handleCompleteStep s

/-- The user's `profiles` row fields touched by onboarding. -/
structure Profile where
  monthly_income : Int
  onboarding_completed : Bool
deriving DecidableEq, Repr

/-- The Complete Setup action under the screen's gating: when the button is
disabled (`totalPercentage !== 100`) nothing runs; otherwise `handleComplete`
updates the profile and performs the category/split inserts. -/
def onboardingSubmit (p : Profile) (incomeInCents : Int)
    (s : OnboardingState) (cats : List CategoryDef) :
    Profile × OnboardingState :=
  if completeSetupDisabled cats then (p, s)
  else ({ monthly_income := incomeInCents, onboarding_completed := true },
        handleComplete s cats)

/-- Transaction types, from the schema CHECK constraint
`transaction_type IN ('income', 'expense', 'transfer', 'treat')`. -/
inductive TransactionType
  | income
  | expense
  | transfer
  | treat
deriving DecidableEq, Repr

/-- A row of the `transactions` table, with the fields the screens read. -/
structure Transaction where
  transaction_type : TransactionType
  amount : Int
  merchant : String
  description : String
  transaction_date : Int
  is_impulse : Bool
deriving DecidableEq, Repr

/-- The user's `treat_wallet` row. -/
structure TreatWallet where
  current_balance : Int
  monthly_budget : Int
  total_spent_this_month : Int
deriving DecidableEq, Repr

/-- The treat screen's `remainingBudget`:
`wallet.monthly_budget - wallet.total_spent_this_month`. -/
def remainingBudget (wallet : TreatWallet) : Int :=
  wallet.monthly_budget - wallet.total_spent_this_month

/-- The `handleSpend` handler of the treat screen, past its non-empty-input
guards: if `amountInCents > wallet.current_balance` it returns without any
write; otherwise it inserts a `'treat'` transaction of that amount and
updates the wallet by subtracting the amount from `current_balance` and
adding it to `total_spent_this_month`.  Returns the wallet row and the
user's transaction rows after the handler. -/
def handleSpend (wallet : TreatWallet) (txs : List Transaction)
    (amountInCents : Int) (recipient description : String) (date : Int) :
    TreatWallet × List Transaction :=
  if amountInCents > wallet.current_balance then (wallet, txs)
  else
    ({ current_balance := wallet.current_balance - amountInCents
       monthly_budget := wallet.monthly_budget
       total_spent_this_month := wallet.total_spent_this_month + amountInCents },
     txs ++ [{ transaction_type := .treat
               amount := amountInCents
               merchant := recipient
               description := description
               transaction_date := date
               is_impulse := false }])

/-- Status of a `locked_savings` row, from the schema CHECK constraint
`status IN ('active', 'unlocked', 'cancelled')`. -/
inductive SavingStatus
  | active
  | unlocked
  | cancelled
deriving DecidableEq, Repr

/-- A row of the `locked_savings` table, with the fields the screen uses. -/
structure LockedSaving where
  amount : Int
  lock_reason : String
  unlock_date : Int
  status : SavingStatus
deriving DecidableEq, Repr

/-- The row inserted by `handleLockSavings`: the parsed amount in cents, the
reason, the caller-supplied unlock date, and `status: 'active'`. -/
def handleLockSavings (amountInCents : Int) (reason : String)
    (unlockDateTime : Int) : LockedSaving :=
  { amount := amountInCents
    lock_reason := reason
    unlock_date := unlockDateTime
    status := .active }

/-- The locked screen's `isUnlockable`:
`new Date(unlockDateString) <= new Date()`, on timestamps. -/
def isUnlockable (unlockDate now : Int) : Bool :=
  decide (unlockDate ≤ now)

/-- The `handleUnlock` handler: sets the row's status to `'unlocked'`. -/
def handleUnlock (s : LockedSaving) : LockedSaving :=
  { s with status := .unlocked }

/-- Whether the screen renders the Unlock button for a saving: the button
appears inside the `activeSavings` list (rows with status `'active'`) and
only when `isUnlockable(saving.unlock_date)` holds. -/
def unlockOffered (s : LockedSaving) (now : Int) : Bool :=
  decide (s.status = SavingStatus.active) && isUnlockable s.unlock_date now

/-- The transactions screen's filter state: `'all' | 'income' | 'expense'`. -/
inductive TxFilter
  | all
  | income
  | expense
deriving DecidableEq, Repr

/-- The `.eq('transaction_type', filter)` condition added to the query when
the filter is not `'all'`. -/
def matchesFilter (f : TxFilter) (t : Transaction) : Bool :=
  match f with
  | .all => true
  | .income => decide (t.transaction_type = TransactionType.income)
  | .expense => decide (t.transaction_type = TransactionType.expense)

/-- Descending ordering on `transaction_date`, the
`.order('transaction_date', { ascending: false })` of the query. -/
def dateGe (a b : Transaction) : Prop :=
  b.transaction_date ≤ a.transaction_date

instance : DecidableRel dateGe :=
  fun a b => inferInstanceAs (Decidable (b.transaction_date ≤ a.transaction_date))

instance : IsTotal Transaction dateGe :=
  ⟨fun a b => le_total b.transaction_date a.transaction_date⟩

instance : IsTrans Transaction dateGe :=
  ⟨fun _ _ _ h1 h2 => le_trans h2 h1⟩

/-- The `fetchTransactions` query of the transactions screen, as a pure
function of the user's stored transaction rows: apply the type filter (when
not `'all'`), order by `transaction_date` descending (modelled by a stable
insertion sort), and limit to 50. -/
def fetchTransactions (db : List Transaction) (f : TxFilter) :
    List Transaction :=
  (List.insertionSort dateGe (db.filter (matchesFilter f))).take 50

/-- The screens' `totalIncome`: reduce of `amount` over the rows with
`transaction_type === 'income'`. -/
def totalIncome (txs : List Transaction) : Int :=
  (txs.filter (fun t => decide (t.transaction_type = TransactionType.income))).foldl
    (fun sum t => sum + t.amount) 0

/-- The screens' `totalExpenses`: reduce of `amount` over the rows with
`transaction_type === 'expense'`. -/
def totalExpenses (txs : List Transaction) : Int :=
  (txs.filter (fun t => decide (t.transaction_type = TransactionType.expense))).foldl
    (fun sum t => sum + t.amount) 0

/-- The reports screen's `impulseSpending`: reduce of `amount` over the rows
with `is_impulse` set. -/
def impulseSpending (txs : List Transaction) : Int :=
  (txs.filter (fun t => t.is_impulse)).foldl (fun sum t => sum + t.amount) 0

/-- The reports screen's savings rate:
`totalIncome > 0 ? Math.round(((totalIncome - totalExpenses) / totalIncome) * 100) : 0`,
with the JavaScript division and `Math.round` modelled by exact rational
arithmetic and `round` (both round half toward positive infinity). -/
def savingsRate (txs : List Transaction) : Int :=
  if 0 < totalIncome txs then
    round ((((totalIncome txs : ℚ) - (totalExpenses txs : ℚ))
      / (totalIncome txs : ℚ)) * 100)
  else 0

/-- The fields of the report computed by `generateCurrentMonthReport` from
the month's transactions (id, month, year and the random summary are not
modelled; `top_spending_category` is the constant `'Daily'`). -/
structure MonthlyReport where
  total_income : Int
  total_expenses : Int
  savings_rate : Int
  impulse_spending : Int
  goals_met : Bool
deriving DecidableEq, Repr

/-- The report built by `generateCurrentMonthReport` from the fetched
transactions of the current month. -/
def generateCurrentMonthReport (txs : List Transaction) : MonthlyReport :=
  { total_income := totalIncome txs
    total_expenses := totalExpenses txs
    savings_rate := savingsRate txs
    impulse_spending := impulseSpending txs
    goals_met := decide (20 ≤ savingsRate txs) }

/-- Storing a monetary amount as integer cents:
`Math.round(parseFloat(value) * 100)`, with the parsed value modelled as an
exact rational. -/
def toCents (value : ℚ) : Int :=
  round (value * 100)

/-- Rendering stored cents back as an amount: the screens'
`(cents / 100).toFixed(2)`, whose numeric value is `cents / 100`. -/
def formatCents (cents : Int) : ℚ :=
  (cents : ℚ) / 100

/-- A wallet state with a spent month: balance 1000, budget 500, spent 400. -/
def sampleWallet : TreatWallet :=
  { current_balance := 1000, monthly_budget := 500, total_spent_this_month := 400 }

/-- A concrete income transaction row. -/
def sampleIncomeTx : Transaction :=
  { transaction_type := .income, amount := 500, merchant := "Employer",
    description := "", transaction_date := 2, is_impulse := false }

/-- A concrete expense transaction row. -/
def sampleExpenseTx : Transaction :=
  { transaction_type := .expense, amount := 300, merchant := "Shop",
    description := "", transaction_date := 1, is_impulse := false }

/-- A small stored transaction list. -/
def sampleDb : List Transaction := [sampleExpenseTx, sampleIncomeTx]

/-- An income transaction row with negative stored cents (the `amount`
column is an unconstrained `integer`). -/
def negIncomeTx : Transaction :=
  { transaction_type := .income, amount := -100, merchant := "Refund",
    description := "", transaction_date := 0, is_impulse := false }

/-- Folding addition of a projection over a list equals the initial value
plus the sum of the projected values. -/
theorem foldl_add_eq_sum {α : Type} (g : α → Int) (init : Int) (l : List α) :
    l.foldl (fun sum x => sum + g x) init = init + (l.map g).sum := by
  induction l generalizing init with
  | nil => simp
  | cons x xs ih => simp [ih, add_assoc]

/-- A list of integers each in `[0, 100]` has sum in `[0, 100 * length]`. -/
theorem sum_bounds_of_mem (l : List Int)
    (h : ∀ x ∈ l, 0 ≤ x ∧ x ≤ 100) :
    0 ≤ l.sum ∧ l.sum ≤ 100 * l.length := by
  induction l with
  | nil => simp
  | cons x xs ih =>
    have hx := h x (by simp)
    have hxs := ih (fun y hy => h y (by simp [hy]))
    simp only [List.sum_cons, List.length_cons]
    push_cast
    constructor
    · omega
    · have : (100 : Int) * (xs.length + 1) = 100 * xs.length + 100 := by ring
      omega

/-- C1.  The claim ties spend permission to the monthly budget cap
`monthly_budget - total_spent_this_month`.  Counterexample: with balance
1000, budget 500 and 400 already spent, a 600-cent spend exceeds the
remaining cap of 100, yet `handleSpend` records the treat transaction and
changes the wallet, because the code's only arithmetic guard is
`amountInCents > wallet.current_balance`. -/
theorem treat_spend_budget_cap_cex :
    (600 : Int) > remainingBudget sampleWallet ∧
    (handleSpend sampleWallet [] 600 sampleIncomeTx.merchant
        sampleIncomeTx.description 0).2 ≠ [] ∧
    (handleSpend sampleWallet [] 600 sampleIncomeTx.merchant
        sampleIncomeTx.description 0).1 ≠ sampleWallet := by
  decide

/-- C1 amended.  A treat spend is permitted exactly when the amount does not
exceed the wallet's `current_balance`: an attempt above the balance is
rejected and leaves the wallet and the transaction list unchanged, while an
attempt within the balance appends a `'treat'` transaction of that amount. -/
theorem treat_spend_balance_cap (w : TreatWallet) (txs : List Transaction)
    (a : Int) (r d : String) (t : Int) :
    (a > w.current_balance → handleSpend w txs a r d t = (w, txs)) ∧
    (a ≤ w.current_balance →
      (handleSpend w txs a r d t).2
        = txs ++ [{ transaction_type := .treat, amount := a, merchant := r,
                    description := d, transaction_date := t,
                    is_impulse := false }]) := by
  constructor
  · intro h
    simp [handleSpend, h]
  · intro h
    simp [handleSpend, not_lt.mpr h]

/-- Witness for the amended C1 at concrete inputs: a 2000-cent attempt on a
1000-cent balance is a no-op, while a 600-cent attempt is recorded. -/
theorem treat_spend_balance_cap_witness :
    handleSpend sampleWallet [] 2000 sampleIncomeTx.merchant
        sampleIncomeTx.description 0 = (sampleWallet, []) ∧
    (handleSpend sampleWallet [] 600 sampleIncomeTx.merchant
        sampleIncomeTx.description 0).2
      = [{ transaction_type := .treat, amount := 600,
           merchant := sampleIncomeTx.merchant,
           description := sampleIncomeTx.description, transaction_date := 0,
           is_impulse := false }] :=
  ⟨(treat_spend_balance_cap sampleWallet [] 2000 sampleIncomeTx.merchant
      sampleIncomeTx.description 0).1 (by decide),
   (treat_spend_balance_cap sampleWallet [] 600 sampleIncomeTx.merchant
      sampleIncomeTx.description 0).2 (by decide)⟩

/-- C5.  The configured budget categories are exactly the five fixed types
Bills, Goals, Daily, Freedom, Emergency, with default percentages
30, 20, 25, 20, 5 summing to exactly 100; the `CategoryType` type mirrors
the schema's CHECK constraint, so those five types are the only ones. -/
theorem default_categories_partition :
    DEFAULT_CATEGORIES.map (fun c => c.type)
      = [.bills, .goals, .daily, .freedom, .emergency] ∧
    DEFAULT_CATEGORIES.map (fun c => c.percentage) = [30, 20, 25, 20, 5] ∧
    totalPercentage DEFAULT_CATEGORIES = 100 ∧
    ∀ t : CategoryType,
      t ∈ [CategoryType.bills, .goals, .daily, .freedom, .emergency] := by
  refine ⟨rfl, rfl, by decide, ?_⟩
  intro t
  cases t <;> simp

/-- C8.  A successful treat spend (amount within the balance) decreases
`current_balance` by exactly the amount, increases `total_spent_this_month`
by exactly the amount, and therefore leaves their sum unchanged. -/
theorem treat_spend_wallet_invariant (w : TreatWallet)
    (txs : List Transaction) (a : Int) (r d : String) (t : Int)
    (h : a ≤ w.current_balance) :
    (handleSpend w txs a r d t).1.current_balance = w.current_balance - a ∧
    (handleSpend w txs a r d t).1.total_spent_this_month
      = w.total_spent_this_month + a ∧
    (handleSpend w txs a r d t).1.current_balance
        + (handleSpend w txs a r d t).1.total_spent_this_month
      = w.current_balance + w.total_spent_this_month := by
  refine ⟨?_, ?_, ?_⟩ <;> simp [handleSpend, not_lt.mpr h]

/-- Witness for C8: spending 250 cents from the sample wallet. -/
theorem treat_spend_wallet_invariant_witness :
    (250 : Int) ≤ sampleWallet.current_balance ∧
    (handleSpend sampleWallet [] 250 sampleIncomeTx.merchant
        sampleIncomeTx.description 0).1.current_balance
        + (handleSpend sampleWallet [] 250 sampleIncomeTx.merchant
            sampleIncomeTx.description 0).1.total_spent_this_month
      = sampleWallet.current_balance + sampleWallet.total_spent_this_month :=
  ⟨by decide,
   (treat_spend_wallet_invariant sampleWallet [] 250 sampleIncomeTx.merchant
      sampleIncomeTx.description 0 (by decide)).2.2⟩

/-- C2.  The Complete Setup action is enabled (its `disabled` flag is false)
if and only if the category percentages sum to exactly 100, and whenever the
sum differs from 100 the gated submit performs no profile or category
writes: the profile row and the per-user database slice are returned
unchanged. -/
theorem complete_setup_iff_sum_100 (p : Profile) (incomeInCents : Int)
    (s : OnboardingState) (cats : List CategoryDef) :
    (completeSetupDisabled cats = false ↔ totalPercentage cats = 100) ∧
    (totalPercentage cats ≠ 100 →
      onboardingSubmit p incomeInCents s cats = (p, s)) := by
  constructor
  · simp [completeSetupDisabled]
  · intro h
    simp [onboardingSubmit, completeSetupDisabled, h]

/-- Witness for C2: with the Bills percentage changed to 99 on an otherwise
untouched default configuration the sum is 169, setup is disabled, and the
submit changes nothing; with the defaults the button is enabled. -/
theorem complete_setup_iff_sum_100_witness :
    totalPercentage (handlePercentageChange DEFAULT_CATEGORIES 0 (some 99))
      ≠ 100 ∧
    onboardingSubmit { monthly_income := 0, onboarding_completed := false }
        500000 { budget_categories := [], income_splits := [], nextId := 0 }
        (handlePercentageChange DEFAULT_CATEGORIES 0 (some 99))
      = ({ monthly_income := 0, onboarding_completed := false },
         { budget_categories := [], income_splits := [], nextId := 0 }) ∧
    completeSetupDisabled DEFAULT_CATEGORIES = false :=
  ⟨by decide,
   (complete_setup_iff_sum_100
      { monthly_income := 0, onboarding_completed := false } 500000
      { budget_categories := [], income_splits := [], nextId := 0 }
      (handlePercentageChange DEFAULT_CATEGORIES 0 (some 99))).2 (by decide),
   (complete_setup_iff_sum_100
      { monthly_income := 0, onboarding_completed := false } 500000
      { budget_categories := [], income_splits := [], nextId := 0 }
      DEFAULT_CATEGORIES).1.mpr (by decide)⟩

/-- C3.  Evaluating `handleComplete` for a user with no existing categories:
all five `budget_categories` rows are created (ids 0..4, balances 0, the
chosen percentages), but every inserted `income_splits` row carries
`category_id = none`, because the code passes `existingCategory?.id` —
evaluated on the pre-insert lookup, which returned no row — instead of the
id of the row it just created.  The schema moreover declares
`income_splits.category_id` as `NOT NULL`, so the attempted insert
contradicts the repository's own migration. -/
theorem onboarding_income_splits_not_linked :
    (handleComplete { budget_categories := [], income_splits := [], nextId := 0 }
        DEFAULT_CATEGORIES).budget_categories.map (fun r => r.id)
      = [0, 1, 2, 3, 4] ∧
    (handleComplete { budget_categories := [], income_splits := [], nextId := 0 }
        DEFAULT_CATEGORIES).budget_categories.map (fun r => r.current_balance)
      = [0, 0, 0, 0, 0] ∧
    (handleComplete { budget_categories := [], income_splits := [], nextId := 0 }
        DEFAULT_CATEGORIES).income_splits.map (fun r => r.split_percentage)
      = [30, 20, 25, 20, 5] ∧
    (handleComplete { budget_categories := [], income_splits := [], nextId := 0 }
        DEFAULT_CATEGORIES).income_splits.map (fun r => r.category_id)
      = [none, none, none, none, none] := by
  decide

/-- C4.  A locked saving is created with status `'active'` and the
caller-supplied unlock date; `handleUnlock` sets status to `'unlocked'`;
and the Unlock button is offered exactly for savings that are active with
`unlock_date` at or before the current date — so under the UI gating a
saving is never unlocked before its unlock date has arrived. -/
theorem locked_savings_unlock_gating (a : Int) (r : String) (d : Int)
    (s : LockedSaving) (now : Int) :
    (handleLockSavings a r d).status = SavingStatus.active ∧
    (handleLockSavings a r d).unlock_date = d ∧
    (handleUnlock s).status = SavingStatus.unlocked ∧
    (unlockOffered s now = true ↔
      s.status = SavingStatus.active ∧ s.unlock_date ≤ now) := by
  refine ⟨rfl, rfl, rfl, ?_⟩
  simp [unlockOffered, isUnlockable]

/-- Witness for C4: a saving locked until time 5 is offered for unlock at
time 7 but not at time 3. -/
theorem locked_savings_unlock_gating_witness :
    (handleLockSavings 100 sampleIncomeTx.merchant 5).status
      = SavingStatus.active ∧
    unlockOffered (handleLockSavings 100 sampleIncomeTx.merchant 5) 7
      = true ∧
    unlockOffered (handleLockSavings 100 sampleIncomeTx.merchant 5) 3
      ≠ true :=
  ⟨(locked_savings_unlock_gating 100 sampleIncomeTx.merchant 5
      (handleLockSavings 100 sampleIncomeTx.merchant 5) 7).1,
   (locked_savings_unlock_gating 100 sampleIncomeTx.merchant 5
      (handleLockSavings 100 sampleIncomeTx.merchant 5) 7).2.2.2.mpr
     (by decide),
   fun hc =>
     absurd ((locked_savings_unlock_gating 100 sampleIncomeTx.merchant 5
       (handleLockSavings 100 sampleIncomeTx.merchant 5) 3).2.2.2.mp hc).2
       (by decide)⟩

/-- C6.  Storing a non-negative amount with at most two decimal places
(`value * 100` is an integer) as cents via `Math.round(value * 100)` and
formatting the cents back as `cents / 100` returns the original amount. -/
theorem cents_round_trip (value : ℚ) (h0 : 0 ≤ value)
    (h2 : (value * 100).den = 1) :
    formatCents (toCents value) = value := by
  have hk : ((value * 100).num : ℚ) = value * 100 :=
    (Rat.den_eq_one_iff _).mp h2
  have hr : toCents value = (value * 100).num := by
    unfold toCents
    conv_lhs => rw [← hk]
    exact round_intCast _
  rw [formatCents, hr, hk]
  field_simp

/-- Witness for C6 at the amount 0.29: twenty-nine cents round-trips. -/
theorem cents_round_trip_witness :
    (0 : ℚ) ≤ 29 / 100 ∧ ((29 / 100 : ℚ) * 100).den = 1 ∧
    formatCents (toCents (29 / 100 : ℚ)) = 29 / 100 :=
  ⟨by norm_num,
   by rw [show ((29 : ℚ) / 100 * 100) = 29 by norm_num]; rfl,
   cents_round_trip (29 / 100) (by norm_num)
     (by rw [show ((29 : ℚ) / 100 * 100) = 29 by norm_num]; rfl)⟩

/-- C7.  On the transactions screen, for every fetched list the Income
summary is the sum of the amounts of the `'income'` rows and the Expenses
summary the sum of the `'expense'` rows; when a type filter is selected
every fetched row has that type; and the fetched list is ordered by
`transaction_date` descending with at most 50 entries. -/
theorem transactions_screen_summaries (db : List Transaction) (f : TxFilter) :
    totalIncome (fetchTransactions db f)
      = (((fetchTransactions db f).filter
          (fun t => decide (t.transaction_type = TransactionType.income))).map
          (fun t => t.amount)).sum ∧
    totalExpenses (fetchTransactions db f)
      = (((fetchTransactions db f).filter
          (fun t => decide (t.transaction_type = TransactionType.expense))).map
          (fun t => t.amount)).sum ∧
    (f = TxFilter.income → ∀ t ∈ fetchTransactions db f,
        t.transaction_type = TransactionType.income) ∧
    (f = TxFilter.expense → ∀ t ∈ fetchTransactions db f,
        t.transaction_type = TransactionType.expense) ∧
    (fetchTransactions db f).length ≤ 50 ∧
    List.Sorted dateGe (fetchTransactions db f) := by
  have hmem : ∀ t ∈ fetchTransactions db f, matchesFilter f t = true := by
    intro t ht
    have h1 : t ∈ List.insertionSort dateGe (db.filter (matchesFilter f)) :=
      List.mem_of_mem_take ht
    have h2 : t ∈ db.filter (matchesFilter f) :=
      (List.perm_insertionSort dateGe (db.filter (matchesFilter f))).mem_iff.mp h1
    exact (List.mem_filter.mp h2).2
  refine ⟨?_, ?_, ?_, ?_, ?_, ?_⟩
  · rw [totalIncome, foldl_add_eq_sum, zero_add]
  · rw [totalExpenses, foldl_add_eq_sum, zero_add]
  · rintro rfl t ht
    exact of_decide_eq_true (hmem t ht)
  · rintro rfl t ht
    exact of_decide_eq_true (hmem t ht)
  · exact List.length_take_le 50 _
  · exact List.Pairwise.sublist (List.take_sublist 50 _)
      (List.sorted_insertionSort dateGe (db.filter (matchesFilter f)))

/-- Witness for C7 on a concrete two-row store: the Income summary equation
holds, the income filter fetches the income row, and the limit holds. -/
theorem transactions_screen_summaries_witness :
    totalIncome (fetchTransactions sampleDb TxFilter.all)
      = (((fetchTransactions sampleDb TxFilter.all).filter
          (fun t => decide (t.transaction_type = TransactionType.income))).map
          (fun t => t.amount)).sum ∧
    (fetchTransactions sampleDb TxFilter.income).length ≤ 50 ∧
    sampleIncomeTx.transaction_type = TransactionType.income :=
  ⟨(transactions_screen_summaries sampleDb TxFilter.all).1,
   (transactions_screen_summaries sampleDb TxFilter.income).2.2.2.2.1,
   (transactions_screen_summaries sampleDb TxFilter.income).2.2.1 rfl
     sampleIncomeTx (by decide)⟩

/-- C9.  The claim states the savings rate is 0 exactly when total income
is 0 and otherwise equals `round(100 * (I - E) / I)`.  Counterexample: a
store holding a single income row of −100 cents (the `amount` column is an
unconstrained `integer`) has nonzero total income, yet the code's
`totalIncome > 0` guard yields savings rate 0 instead of the claimed
`round(100 * (I - E) / I) = 100`. -/
theorem savings_rate_negative_income_cex :
    totalIncome [negIncomeTx] ≠ 0 ∧
    (generateCurrentMonthReport [negIncomeTx]).savings_rate
      ≠ round ((100 : ℚ) * ((totalIncome [negIncomeTx] : ℚ)
          - (totalExpenses [negIncomeTx] : ℚ))
          / (totalIncome [negIncomeTx] : ℚ)) := by
  constructor
  · decide
  · have h1 : totalIncome [negIncomeTx] = -100 := by decide
    have h2 : totalExpenses [negIncomeTx] = 0 := by decide
    have h3 : (generateCurrentMonthReport [negIncomeTx]).savings_rate = 0 := by
      simp [generateCurrentMonthReport, savingsRate, h1]
    rw [h1, h2, h3]
    norm_num

/-- C9 amended.  The monthly-report computation is total; the savings rate
is 0 whenever total income is not positive, and for positive total income it
equals `round(100 * (I - E) / I)`; `goals_met` holds exactly when the
savings rate is at least 20. -/
theorem savings_rate_amended (txs : List Transaction) :
    (totalIncome txs ≤ 0 → (generateCurrentMonthReport txs).savings_rate = 0) ∧
    (0 < totalIncome txs →
      (generateCurrentMonthReport txs).savings_rate
        = round ((100 : ℚ) * ((totalIncome txs : ℚ) - (totalExpenses txs : ℚ))
            / (totalIncome txs : ℚ))) ∧
    ((generateCurrentMonthReport txs).goals_met = true
      ↔ 20 ≤ (generateCurrentMonthReport txs).savings_rate) := by
  refine ⟨?_, ?_, ?_⟩
  · intro h
    simp [generateCurrentMonthReport, savingsRate, not_lt.mpr h]
  · intro h
    simp only [generateCurrentMonthReport, savingsRate, if_pos h]
    congr 1
    ring
  · simp [generateCurrentMonthReport]

/-- Witness for the amended C9: with one 500-cent income row and one
300-cent expense row the income is positive and the rate is the claimed
rounded percentage. -/
theorem savings_rate_amended_witness :
    0 < totalIncome sampleDb ∧
    (generateCurrentMonthReport sampleDb).savings_rate
      = round ((100 : ℚ) * ((totalIncome sampleDb : ℚ)
          - (totalExpenses sampleDb : ℚ)) / (totalIncome sampleDb : ℚ)) :=
  ⟨by decide, (savings_rate_amended sampleDb).2.1 (by decide)⟩

/-- C10.  The percentage stored by `handlePercentageChange` always lies in
`[0, 100]` for every parse result (non-numeric input parses to `NaN` and is
stored as 0); hence the handler preserves the invariant that every
category's percentage is in `[0, 100]`, and for the five-entry category
list the displayed total lies in `[0, 500]`. -/
theorem percentage_clamped (cats : List CategoryDef) (index : Nat)
    (parsed : Option Int)
    (hinv : ∀ c ∈ cats, 0 ≤ c.percentage ∧ c.percentage ≤ 100) :
    (0 ≤ storedPercentage parsed ∧ storedPercentage parsed ≤ 100) ∧
    (∀ c ∈ handlePercentageChange cats index parsed,
        0 ≤ c.percentage ∧ c.percentage ≤ 100) ∧
    (cats.length = 5 →
      0 ≤ totalPercentage (handlePercentageChange cats index parsed) ∧
        totalPercentage (handlePercentageChange cats index parsed) ≤ 500) := by
  have hstored : ∀ q : Option Int,
      0 ≤ storedPercentage q ∧ storedPercentage q ≤ 100 := by
    intro q
    unfold storedPercentage
    constructor
    · exact le_min (by norm_num) (le_max_left 0 _)
    · exact min_le_left _ _
  have hall : ∀ c ∈ handlePercentageChange cats index parsed,
      0 ≤ c.percentage ∧ c.percentage ≤ 100 := by
    intro c hc
    unfold handlePercentageChange at hc
    cases hidx : cats[index]? with
    | none =>
      rw [hidx] at hc
      exact hinv c hc
    | some c0 =>
      rw [hidx] at hc
      rcases List.mem_or_eq_of_mem_set hc with h | h
      · exact hinv c h
      · rw [h]
        exact hstored parsed
  refine ⟨hstored parsed, hall, ?_⟩
  intro hlen
  have hlen2 : (handlePercentageChange cats index parsed).length = 5 := by
    unfold handlePercentageChange
    cases cats[index]? with
    | none => exact hlen
    | some c0 => rw [List.length_set]; exact hlen
  have hsum := sum_bounds_of_mem
    ((handlePercentageChange cats index parsed).map (fun c => c.percentage))
    (by
      intro x hx
      rcases List.mem_map.mp hx with ⟨c, hc, rfl⟩
      exact hall c hc)
  rw [List.length_map, hlen2] at hsum
  have htot : totalPercentage (handlePercentageChange cats index parsed)
      = ((handlePercentageChange cats index parsed).map
          (fun c => c.percentage)).sum := by
    rw [totalPercentage, foldl_add_eq_sum, zero_add]
  rw [htot]
  exact ⟨hsum.1, by omega⟩

/-- Witness for C10: typing 250 into the Bills field stores 100, keeps every
percentage in range, and the five-entry total stays within `[0, 500]`. -/
theorem percentage_clamped_witness :
    (0 ≤ storedPercentage (some 250) ∧ storedPercentage (some 250) ≤ 100) ∧
    DEFAULT_CATEGORIES.length = 5 ∧
    (0 ≤ totalPercentage (handlePercentageChange DEFAULT_CATEGORIES 0 (some 250))
      ∧ totalPercentage (handlePercentageChange DEFAULT_CATEGORIES 0 (some 250))
          ≤ 500) :=
  ⟨(percentage_clamped DEFAULT_CATEGORIES 0 (some 250) (by decide)).1,
   by decide,
   (percentage_clamped DEFAULT_CATEGORIES 0 (some 250) (by decide)).2.2
     (by decide)⟩

end IronWallet
